import Mathlib

/-!
Shallow embedding of the provider-fallback / retrieval core of the
retrieval-augmented chat service, together with proofs checking the
natural-language specification against it.

Modelling conventions:
* Python `Optional[T]` becomes `Option T`; Python exceptions raised by an
  external call become the `Except.error` branch of an oracle argument, so a
  Lean function that returns a plain (non-`Except`) value embeds Python code
  that cannot raise past its boundary.
* Python dicts used as finite maps become association lists.
* Python string slicing `s[:n]` becomes `String.take s n`, and f-string
  interpolation becomes explicit concatenation.
-/

/-- `llm/base.py` `Message`: a chat message with a role and content. -/
structure Message where
  role : String
  content : String
deriving Repr, DecidableEq

/-- `llm/base.py` `LLMResponse`: the normalized response from an LLM
provider (dataclass fields in source order, with the same defaults). -/
structure LLMResponse where
  content : String
  model : String
  provider : String
  tokens_used : Option Nat := none
  finish_reason : Option String := none
  error : Option String := none
deriving Repr, DecidableEq

/-- The slice of `config.llm` that `LLMFactory.generate_with_fallback`
reads: the default provider name, the fallback-enabled flag and the
configured fallback order. -/
structure LLMConfig where
  default_provider : String
  enable_fallback : Bool
  fallback_order : List String
deriving Repr, DecidableEq

/-- Renders a Python `Optional[str]` the way an f-string does: `None`
prints as the text `None`, a string prints as itself. -/
def pyStrOfOpt : Option String → String
  | none => "None"
  | some s => s

/-- `llm/factory.py` lines 157-167: the synthetic response built when the
candidate list is exhausted (`provider="none"`, `model="unknown"`). -/
def allProvidersFailed (last_error : Option String) : LLMResponse :=
  { content := "I apologize, but I\x27m currently unable to process your request. Please try again later."
    model := "unknown"
    provider := "none"
    tokens_used := none
    finish_reason := some "error"
    error := some ("All providers failed. Last error: " ++ pyStrOfOpt last_error) }

/-- `llm/factory.py` lines 121-131: build `providers_to_try`.
`available` is the key set of `self._providers`; `preferred` is the
`preferred_provider` argument.  Python truthiness of the string is kept:
an empty preferred name is skipped exactly as `if preferred_provider and
...` skips it. -/
def providersToTry (cfg : LLMConfig) (available : List String)
    (preferred : Option String) : List String :=
  let init : List String :=
    match preferred with
    | some p => if p ≠ "" && available.contains p then [p] else []
    | none => []
  if cfg.enable_fallback then
    cfg.fallback_order.foldl
      (fun acc name =>
        if !acc.contains name && available.contains name then acc ++ [name]
        else acc)
      init
  else init

/-- Outcome of calling one provider: `Except.error e` embeds the provider
raising an exception with message `e`, `Except.ok r` embeds it returning
the response `r`. -/
def ProviderOracle := String → Except String LLMResponse

/-- `llm/factory.py` lines 132-167: the trial loop.  Walks the candidate
list in order threading `last_error`; returns the first response whose
`finish_reason` is not `"error"`; on an error response records
`response.error`, on an exception records its message; when the list is
exhausted returns the synthetic failure response. -/
def tryProviders (gen : ProviderOracle) :
    List String → Option String → LLMResponse
  | [], last_error => allProvidersFailed last_error
  | name :: rest, _last_error =>
    match gen name with
    | Except.ok response =>
      if response.finish_reason ≠ some "error" then response
      else tryProviders gen rest response.error
    | Except.error e => tryProviders gen rest (some e)

/-- `LLMFactory.generate_with_fallback`, composed from the candidate-list
construction and the trial loop.  The message list and system prompt pass
straight through to the providers, so they are folded into the oracle. -/
def generate_with_fallback (cfg : LLMConfig) (available : List String)
    (gen : ProviderOracle) (preferred : Option String) : LLMResponse :=
  tryProviders gen (providersToTry cfg available preferred) none

/-- A provider outcome counts as a success for the orchestrator iff it is
a returned response whose `finish_reason` differs from `"error"`. -/
def outcomeSuccess : Except String LLMResponse → Bool
  | Except.ok r => r.finish_reason ≠ some "error"
  | Except.error _ => false

/-- `llm/base.py` lines 138-158, `BaseLLMProvider._handle_error`:
converts a caught exception into an error response.  `provider_id` is the
value of `self.__class__.__name__.replace("Provider", "").lower()` for
the concrete adapter subclass. -/
def handle_error (model provider_id operation err : String) : LLMResponse :=
  { content := "I apologize, but I encountered an error processing your request. Please try again."
    model := model
    provider := provider_id
    tokens_used := none
    finish_reason := some "error"
    error := some (operation ++ " failed: " ++ err) }

/-- The fields of an OpenAI chat-completion response that
`OpenAIProvider.generate_response` reads out. -/
structure OpenAIAPIResponse where
  content : String
  finish_reason : Option String
  total_tokens : Option Nat
deriving Repr, DecidableEq

/-- `llm/openai_provider.py` lines 17-42, `OpenAIProvider.generate_response`.
The whole body sits in one `try`, so every effect of the underlying call —
a parsed response or a raised exception — is the oracle argument `call`;
the adapter itself returns a plain `LLMResponse` and can never raise. -/
def OpenAIProvider.generate_response (model : String)
    (call : Except String OpenAIAPIResponse) : LLMResponse :=
  match call with
  | Except.ok r =>
    { content := r.content
      model := model
      provider := "openai"
      tokens_used := r.total_tokens
      finish_reason := r.finish_reason
      error := none }
  | Except.error e => handle_error model "openai" "generate_response" e

/-- A document returned by `VectorStore.search`: a LangChain document with
`page_content` and a metadata dict from which `source` and `url` are read
with `metadata.get` (absent keys give the defaults below). -/
structure RetrievedDoc where
  page_content : String
  source : Option String
  url : Option String
deriving Repr, DecidableEq

/-- The source dict built per document in `retrieve_context`. -/
structure SourceInfo where
  title : String
  url : String
  content : String
deriving Repr, DecidableEq

/-- The dict returned by `DocumentRetriever.retrieve_context`. -/
structure RetrievalResult where
  context : String
  sources : List SourceInfo
deriving Repr, DecidableEq

/-- `vector_db/retriever.py` lines 45-54, loop body for a document at
1-based rank `i`: the context part is the text tagged with its rank. -/
def contextPart (i : Nat) (doc : RetrievedDoc) : String :=
  "[" ++ toString i ++ "] " ++ doc.page_content

/-- `vector_db/retriever.py` lines 49-53: the per-document source dict.
`page_content[:200]` is `String.take`, and the ellipsis is appended
unconditionally. -/
def mkSource (doc : RetrievedDoc) : SourceInfo :=
  { title := doc.source.getD "Unknown"
    url := doc.url.getD "#"
    content := doc.page_content.take 200 ++ "..." }

/-- The `for i, doc in enumerate(results, 1)` loop of `retrieve_context`:
builds `context_parts` and `sources` in step, threading the 1-based
counter. -/
def buildParts : Nat → List RetrievedDoc → List String × List SourceInfo
  | _, [] => ([], [])
  | i, doc :: rest =>
    let built := buildParts (i + 1) rest
    (contextPart i doc :: built.1, mkSource doc :: built.2)

/-- `vector_db/retriever.py` lines 31-68, `DocumentRetriever.retrieve_context`.
The underlying `vector_store.search` call is the oracle argument:
`Except.error` embeds the search raising, `Except.ok` its result list.
Zero results give the no-information sentinel; a raise gives the error
sentinel; otherwise context is the parts joined by a blank line. -/
def retrieve_context (search : Except String (List RetrievedDoc)) :
    RetrievalResult :=
  match search with
  | Except.error _ =>
    { context := "Error retrieving information.", sources := [] }
  | Except.ok results =>
    if results.isEmpty then
      { context := "No relevant information found.", sources := [] }
    else
      let built := buildParts 1 results
      { context := String.intercalate "\n\n" built.1, sources := built.2 }

/-- The per-session dict stored in `routers/chat.py`'s module-level
`conversations` map: creation time, history entries and a message count. -/
structure SessionData where
  created_at : String
  history : List (String × String)
  message_count : Nat
deriving Repr, DecidableEq

/-- A FastAPI `HTTPException` as raised by the chat router. -/
structure HTTPError where
  status_code : Nat
  detail : String
deriving Repr, DecidableEq

/-- The `conversations` dict: an association list from session id to its
data, with dict-key membership given by `List.lookup`. -/
def Conversations := List (String × SessionData)

/-- `routers/chat.py` lines 212-226, `get_history`: an unknown session id
raises 404, a known one returns its stored data. -/
def get_history (conversations : Conversations) (session_id : String) :
    Except HTTPError SessionData :=
  match conversations.lookup session_id with
  | some data => Except.ok data
  | none => Except.error { status_code := 404, detail := "Session not found" }

/-- `routers/chat.py` lines 228-243, `delete_history`: a known session id
is removed and a success message returned; an unknown one raises 404. -/
def delete_history (conversations : Conversations) (session_id : String) :
    Except HTTPError (String × Conversations) :=
  match conversations.lookup session_id with
  | some _ =>
    Except.ok ("History deleted successfully",
      conversations.filter (fun entry => entry.1 ≠ session_id))
  | none => Except.error { status_code := 404, detail := "Session not found" }

/-- The `ChatMessage` pydantic model of `routers/chat.py`. -/
structure ChatMessage where
  role : String
  content : String
deriving Repr, DecidableEq

/-- `routers/chat.py` lines 96-103: the context-augmented user prompt
(the f-string written out as concatenation). -/
def user_prompt (context message : String) : String :=
  "Context information:\n" ++ context ++
    "\n\nBased on the above context, please answer the following question:\n\nQuestion: " ++
    message ++ "\n\nAnswer:"

/-- Python list slice `l[-n:]`: the last `n` elements (the whole list when
it is shorter than `n`). -/
def takeLast (n : Nat) (l : List α) : List α :=
  l.drop (l.length - n)

/-- `routers/chat.py` lines 87-105 of `chat`: the message sequence handed
to `generate_with_fallback` — the last 6 history messages (the
`conversation_history[-6:]` slice, skipped entirely when the history is
empty, which the slice makes equal anyway) followed by the
context-augmented query as a user message. -/
def build_llm_messages (conversation_history : List ChatMessage)
    (context message : String) : List Message :=
  let history_msgs :=
    if conversation_history.isEmpty then []
    else
      (takeLast 6 conversation_history).map
        (fun m => { role := m.role, content := m.content : Message })
  history_msgs ++ [{ role := "user", content := user_prompt context message }]

/-- Spec formulation (section 4.3 step 1): remove duplicates from a name
list keeping each first occurrence. -/
def dedupKeepFirst : List String → List String
  | [] => []
  | n :: rest => n :: (dedupKeepFirst rest).filter (fun m => m ≠ n)

/-- Spec formulation (section 4.3 step 1): the configured fallback order,
de-duplicated, restricted to available backends and with the already
listed (preferred) names removed. -/
def specFallbackTail (pre avail order : List String) : List String :=
  (dedupKeepFirst order).filter (fun n => avail.contains n && !pre.contains n)

/-- Spec formulation (section 4.3 steps 1-2): preferred backend first when
specified and available, then the de-duplicated available fallback
order. -/
def specCandidateOrder (preferred : Option String)
    (order avail : List String) : List String :=
  let pre : List String :=
    match preferred with
    | some p => if p ≠ "" && avail.contains p then [p] else []
    | none => []
  pre ++ specFallbackTail pre avail order

/-- A provider outcome is correctly stamped for backend `n` when it is not
a returned response, or is one whose `provider` field equals `n`. -/
def stampedWith (n : String) : Except String LLMResponse → Bool
  | Except.ok r => r.provider == n
  | Except.error _ => true

/-- Concrete fixture: an error response as the openai adapter would
return it. -/
def respErrW : LLMResponse :=
  { content := "Apology", model := "gpt-4", provider := "openai"
    tokens_used := none, finish_reason := some "error", error := some "boom" }

/-- Concrete fixture: a successful response as the gemini adapter would
return it. -/
def respGoodW : LLMResponse :=
  { content := "Hello there", model := "gemini-pro", provider := "gemini"
    tokens_used := some 12, finish_reason := some "stop", error := none }

/-- Concrete fixture oracle: openai returns an error response, claude
raises, gemini succeeds. -/
def genW : ProviderOracle := fun name =>
  if name = "openai" then Except.ok respErrW
  else if name = "claude" then Except.error "ConnectionError: boom"
  else if name = "gemini" then Except.ok respGoodW
  else Except.error "unknown provider"

/-- Concrete fixture config with all three fixture providers in the
fallback order. -/
def cfgW : LLMConfig :=
  { default_provider := "openai", enable_fallback := true
    fallback_order := ["openai", "claude", "gemini"] }

/-- Concrete fixture config whose candidates (openai, claude) all fail
under `genW`. -/
def cfg3W : LLMConfig :=
  { default_provider := "openai", enable_fallback := true
    fallback_order := ["openai", "claude"] }

/-- The available-provider set for the fixtures. -/
def availW : List String := ["openai", "claude", "gemini"]

/-- Concrete fixture session data. -/
def dataW : SessionData :=
  { created_at := "2024-01-01T00:00:00", history := [("user", "hi")]
    message_count := 1 }

/-- Concrete fixture conversations map holding one session. -/
def convW : Conversations := [("s1", dataW)]

/-- Concrete fixture retrieval results: one normal passage and one short
passage without metadata. -/
def docsW : List RetrievedDoc :=
  [{ page_content := "Refunds are processed within 5 business days."
     source := some "refund.md", url := some "refund-link" },
   { page_content := "short", source := none, url := none }]

/-- Concrete fixture conversation history of 8 messages. -/
def historyW : List ChatMessage :=
  [{ role := "user", content := "m1" }, { role := "assistant", content := "m2" },
   { role := "user", content := "m3" }, { role := "assistant", content := "m4" },
   { role := "user", content := "m5" }, { role := "assistant", content := "m6" },
   { role := "user", content := "m7" }, { role := "assistant", content := "m8" }]

lemma filter_ext (l : List String) (p q : String → Bool) (h : ∀ a, p a = q a) :
    l.filter p = l.filter q := by
  rw [funext h]

lemma providers_foldl (avail : List String) (order : List String) :
    ∀ acc : List String,
      order.foldl (fun acc name =>
          if !acc.contains name && avail.contains name then acc ++ [name]
          else acc) acc
        = acc ++ specFallbackTail acc avail order := by
  induction order with
  | nil => intro acc; simp [specFallbackTail, dedupKeepFirst]
  | cons n rest ih =>
    intro acc
    rw [List.foldl_cons, ih]
    simp only [specFallbackTail, dedupKeepFirst, List.filter_cons, List.filter_filter]
    by_cases hc : (!acc.contains n && avail.contains n) = true
    · obtain ⟨h1, h2⟩ := Bool.and_eq_true_iff.mp hc
      have hPn : (avail.contains n && !acc.contains n) = true := by
        rw [h1, h2]
        rfl
      rw [if_pos hc, if_pos hPn]
      rw [List.append_assoc, List.singleton_append]
      congr 1
      congr 1
      apply filter_ext
      intro a
      by_cases han : a = n
      · subst han
        simp
      · simp [han, List.contains, List.elem_eq_mem, List.mem_append]
    · have hPn : (avail.contains n && !acc.contains n) = false := by
        rw [Bool.and_comm]
        exact Bool.eq_false_iff.mpr hc
      rw [if_neg hc, if_neg (by rw [hPn]; exact Bool.false_ne_true)]
      congr 1
      apply filter_ext
      intro a
      by_cases han : a = n
      · subst han
        rw [hPn]
        simp
      · simp [han]

lemma tryProviders_first_success (gen : ProviderOracle) (names : List String)
    (i : Nat) (hi : i < names.length) (resp : LLMResponse)
    (hok : gen (names.get ⟨i, hi⟩) = Except.ok resp)
    (hresp : resp.finish_reason ≠ some "error")
    (hfail : ∀ j (hj : j < names.length), j < i →
      outcomeSuccess (gen (names.get ⟨j, hj⟩)) = false)
    (last_error : Option String) :
    tryProviders gen names last_error = resp := by
  induction names generalizing i last_error with
  | nil => exact absurd hi (Nat.not_lt_zero i)
  | cons n rest ih =>
    cases i with
    | zero =>
      simp only [List.get] at hok
      simp only [tryProviders, hok]
      rw [if_pos hresp]
    | succ k =>
      have h0 : outcomeSuccess (gen n) = false := by
        have := hfail 0 (Nat.succ_pos rest.length) (Nat.succ_pos k)
        simpa using this
      have hki : k < rest.length := Nat.lt_of_succ_lt_succ hi
      have hok' : gen (rest.get ⟨k, hki⟩) = Except.ok resp := by
        simpa using hok
      have hfail' : ∀ j (hj : j < rest.length), j < k →
          outcomeSuccess (gen (rest.get ⟨j, hj⟩)) = false := by
        intro j hj hjk
        have := hfail (j + 1) (Nat.succ_lt_succ hj) (Nat.succ_lt_succ hjk)
        simpa using this
      simp only [tryProviders]
      cases hg : gen n with
      | ok r =>
        have hfr : ¬ (r.finish_reason ≠ some "error") := by
          rw [hg] at h0
          simpa [outcomeSuccess] using h0
        show (if r.finish_reason ≠ some "error" then r
          else tryProviders gen rest r.error) = resp
        rw [if_neg hfr]
        exact ih k hki hok' hfail' r.error
      | error e => exact ih k hki hok' hfail' (some e)

lemma tryProviders_all_fail (gen : ProviderOracle) (names : List String)
    (hfail : ∀ n ∈ names, outcomeSuccess (gen n) = false) :
    ∀ last_error, ∃ last,
      tryProviders gen names last_error = allProvidersFailed last := by
  induction names with
  | nil => intro le; exact ⟨le, rfl⟩
  | cons n rest ih =>
    intro le
    have h0 : outcomeSuccess (gen n) = false := hfail n (List.mem_cons_self n rest)
    have hrest : ∀ m ∈ rest, outcomeSuccess (gen m) = false :=
      fun m hm => hfail m (List.mem_cons_of_mem n hm)
    simp only [tryProviders]
    cases hg : gen n with
    | ok r =>
      have hfr : ¬ (r.finish_reason ≠ some "error") := by
        rw [hg] at h0
        simpa [outcomeSuccess] using h0
      show ∃ last, (if r.finish_reason ≠ some "error" then r
        else tryProviders gen rest r.error) = allProvidersFailed last
      rw [if_neg hfr]
      exact ih hrest r.error
    | error e => exact ih hrest (some e)

lemma tryProviders_provenance (gen : ProviderOracle) (names : List String) :
    ∀ last_error,
      (tryProviders gen names last_error).provider = "none"
      ∨ ∃ n ∈ names, gen n = Except.ok (tryProviders gen names last_error) := by
  induction names with
  | nil => intro le; left; rfl
  | cons n rest ih =>
    intro le
    simp only [tryProviders]
    cases hg : gen n with
    | ok r =>
      by_cases hfr : r.finish_reason ≠ some "error"
      · show (if r.finish_reason ≠ some "error" then r
            else tryProviders gen rest r.error).provider = "none"
          ∨ ∃ m ∈ n :: rest, gen m = Except.ok (if r.finish_reason ≠ some "error"
            then r else tryProviders gen rest r.error)
        rw [if_pos hfr]
        right
        exact ⟨n, List.mem_cons_self n rest, hg⟩
      · show (if r.finish_reason ≠ some "error" then r
            else tryProviders gen rest r.error).provider = "none"
          ∨ ∃ m ∈ n :: rest, gen m = Except.ok (if r.finish_reason ≠ some "error"
            then r else tryProviders gen rest r.error)
        rw [if_neg hfr]
        rcases ih r.error with h | ⟨m, hm, hgm⟩
        · exact Or.inl h
        · exact Or.inr ⟨m, List.mem_cons_of_mem n hm, hgm⟩
    | error e =>
      rcases ih (some e) with h | ⟨m, hm, hgm⟩
      · exact Or.inl h
      · exact Or.inr ⟨m, List.mem_cons_of_mem n hm, hgm⟩

lemma buildParts_eq (docs : List RetrievedDoc) :
    ∀ i, buildParts i docs
      = ((List.enumFrom i docs).map (fun p => contextPart p.1 p.2),
         docs.map mkSource) := by
  induction docs with
  | nil => intro i; rfl
  | cons d rest ih =>
    intro i
    simp only [buildParts, List.enumFrom, List.map_cons, ih (i + 1)]

lemma string_take_length_le (s : String) (n : Nat) : (s.take n).length ≤ n := by
  rw [String.take_eq]
  show (String.mk (s.1.take n)).length ≤ n
  rw [String.length]
  simp

lemma lookup_filter_ne {β : Type} (l : List (String × β)) (sid : String) :
    (l.filter (fun entry => entry.1 ≠ sid)).lookup sid = none := by
  induction l with
  | nil => rfl
  | cons e rest ih =>
    by_cases he : e.1 = sid
    · simp only [List.filter_cons, he]
      simpa using ih
    · simp only [List.filter_cons]
      rw [if_pos (by simpa using he)]
      have hbeq : (sid == e.1) = false := decide_eq_false fun h => he h.symm
      simp only [List.lookup, hbeq]
      exact ih

/-- C1: candidates built by `generate_with_fallback` are tried strictly in
order; the function returns the result of the first candidate whose
returned `finish_reason` is not `"error"`, tolerating every earlier
candidate that returned an error result or raised. -/
theorem fallback_first_success_C1 (cfg : LLMConfig) (avail : List String)
    (gen : ProviderOracle) (preferred : Option String) (i : Nat)
    (hi : i < (providersToTry cfg avail preferred).length) (resp : LLMResponse)
    (hok : gen ((providersToTry cfg avail preferred).get ⟨i, hi⟩) = Except.ok resp)
    (hresp : resp.finish_reason ≠ some "error")
    (hfail : ∀ j (hj : j < (providersToTry cfg avail preferred).length), j < i →
      outcomeSuccess (gen ((providersToTry cfg avail preferred).get ⟨j, hj⟩)) = false) :
    generate_with_fallback cfg avail gen preferred = resp :=
  tryProviders_first_success gen (providersToTry cfg avail preferred)
    i hi resp hok hresp hfail none

/-- Witness for C1: under the fixture oracle the first candidate returns
an error result, the second raises, and the third succeeds, so the
orchestrator returns the third response. -/
theorem fallback_first_success_C1_witness :
    generate_with_fallback cfgW availW genW none = respGoodW := by
  exact fallback_first_success_C1 cfgW availW genW none 2 (by decide) respGoodW
    rfl (by decide)
    (by
      intro j hj hj2
      interval_cases j <;> rfl)

/-- C2: the candidate order of `generate_with_fallback` is exactly the
preferred provider first (when specified and available) followed by the
configured fallback order de-duplicated and restricted to available
providers; in particular preferred `B` with order `A, B, C` over
available `A, B, C` gives exactly `B, A, C`. -/
theorem fallback_candidate_order_C2 :
    (∀ (d : String) (order avail : List String) (preferred : Option String),
      providersToTry { default_provider := d, enable_fallback := true,
                       fallback_order := order } avail preferred
        = specCandidateOrder preferred order avail)
    ∧ providersToTry { default_provider := "openai", enable_fallback := true,
                       fallback_order := ["A", "B", "C"] } ["A", "B", "C"] (some "B")
      = ["B", "A", "C"] := by
  constructor
  · intro d order avail preferred
    simp only [providersToTry, specCandidateOrder]
    exact providers_foldl avail order _
  · decide

/-- C3: when the candidate list is empty or every candidate fails,
`generate_with_fallback` returns the synthetic response with provider
`"none"`, `finish_reason` `"error"`, the all-providers-failed error
message carrying the last error, and an apology as content. -/
theorem fallback_all_fail_C3 (cfg : LLMConfig) (avail : List String)
    (gen : ProviderOracle) (preferred : Option String)
    (hfail : ∀ n ∈ providersToTry cfg avail preferred,
      outcomeSuccess (gen n) = false) :
    ∃ last : String,
      generate_with_fallback cfg avail gen preferred
        = { content := "I apologize, but I\x27m currently unable to process your request. Please try again later."
            model := "unknown"
            provider := "none"
            tokens_used := none
            finish_reason := some "error"
            error := some ("All providers failed. Last error: " ++ last) } := by
  rcases tryProviders_all_fail gen (providersToTry cfg avail preferred)
    hfail none with ⟨last, h⟩
  exact ⟨pyStrOfOpt last, h⟩

/-- Witness for C3: with candidates openai (error result) and claude
(raises), the orchestrator returns the synthetic all-failed response. -/
theorem fallback_all_fail_C3_witness :
    ∃ last : String,
      generate_with_fallback cfg3W availW genW none
        = { content := "I apologize, but I\x27m currently unable to process your request. Please try again later."
            model := "unknown"
            provider := "none"
            tokens_used := none
            finish_reason := some "error"
            error := some ("All providers failed. Last error: " ++ last) } :=
  fallback_all_fail_C3 cfg3W availW genW none (by decide)

/-- C4 counterexample: with fallback disabled, no preferred provider and
the default provider openai configured and available, the candidate list
is empty rather than the one-element default list the claim requires. -/
theorem fallback_disabled_counterexample_C4 :
    providersToTry { default_provider := "openai", enable_fallback := false,
                     fallback_order := ["openai"] } ["openai"] none = []
    ∧ ([] : List String) ≠ ["openai"] := ⟨rfl, by decide⟩

/-- C4 (amended): with fallback disabled the candidate list is exactly
the preferred provider when one is specified (non-empty) and available,
and empty otherwise — the configured default provider is never
consulted. -/
theorem fallback_disabled_amended_C4 (d p : String) (order avail : List String) :
    providersToTry { default_provider := d, enable_fallback := false,
                     fallback_order := order } avail none = []
    ∧ providersToTry { default_provider := d, enable_fallback := false,
                       fallback_order := order } avail (some "") = []
    ∧ (p ≠ "" → avail.contains p = true →
        providersToTry { default_provider := d, enable_fallback := false,
                         fallback_order := order } avail (some p) = [p])
    ∧ (avail.contains p = false →
        providersToTry { default_provider := d, enable_fallback := false,
                         fallback_order := order } avail (some p) = []) := by
  refine ⟨rfl, rfl, ?_, ?_⟩
  · intro hp hav
    have hmem : p ∈ avail := by simpa using hav
    simp [providersToTry, hp, hmem]
  · intro hav
    have hmem : p ∉ avail := by simpa using hav
    simp [providersToTry, hmem]

/-- Witness for C4: a specified available preferred provider is the sole
candidate; a specified unavailable one leaves the list empty. -/
theorem fallback_disabled_amended_C4_witness :
    providersToTry { default_provider := "openai", enable_fallback := false,
                     fallback_order := ["claude"] } ["claude"] (some "claude") = ["claude"]
    ∧ providersToTry { default_provider := "openai", enable_fallback := false,
                       fallback_order := ["claude"] } ["claude"] (some "gemini") = [] := by
  constructor
  · exact (fallback_disabled_amended_C4 "openai" "claude" ["claude"]
      ["claude"]).2.2.1 (by decide) (by decide)
  · exact (fallback_disabled_amended_C4 "openai" "gemini" ["claude"]
      ["claude"]).2.2.2 (by decide)

/-- C5: the adapter boundary never raises — modelled by
`OpenAIProvider.generate_response` being a total function of the
underlying call outcome — and an underlying failure is converted into a
response with `finish_reason` `"error"`, a diagnostic error field and a
generic apology as content. -/
theorem adapter_error_boundary_C5 (model e : String) :
    OpenAIProvider.generate_response model (Except.error e)
      = { content := "I apologize, but I encountered an error processing your request. Please try again."
          model := model
          provider := "openai"
          tokens_used := none
          finish_reason := some "error"
          error := some ("generate_response failed: " ++ e) } := rfl

/-- C6: `retrieve_context` is total over the search outcome — it never
propagates an exception — returning the no-information sentinel with
empty sources on zero results and the error sentinel with empty sources
when the underlying search raises. -/
theorem retrieve_context_degraded_C6 (e : String) :
    retrieve_context (Except.ok [])
      = { context := "No relevant information found.", sources := [] }
    ∧ retrieve_context (Except.error e)
      = { context := "Error retrieving information.", sources := [] } :=
  ⟨rfl, rfl⟩

set_option maxRecDepth 4000

/-- C7 counterexample: a 5-character passage is not truncated by the
200-character preview, yet its excerpt still carries the ellipsis
marker, contradicting the claim that the marker is appended only when
the passage was actually truncated. -/
theorem excerpt_ellipsis_counterexample_C7 :
    (retrieve_context (Except.ok [{ page_content := "short", source := some "T",
                                    url := some "u" }])).sources
      = [{ title := "T", url := "u", content := "short..." }]
    ∧ "short".length ≤ 200
    ∧ ("short..." : String) ≠ "short" := by
  refine ⟨by decide, by decide, by decide⟩

/-- C7 (amended): for non-empty results the context is the ordered
concatenation of passage texts each tagged with a 1-based rank marker and
joined by a blank line, and each source excerpt is the passage text
truncated to at most 200 characters with the ellipsis marker appended
unconditionally (even when nothing was truncated). -/
theorem retrieve_context_format_C7 (docs : List RetrievedDoc) (h : docs ≠ []) :
    (retrieve_context (Except.ok docs)).context
      = String.intercalate "\n\n"
          ((List.enumFrom 1 docs).map
            (fun p => "[" ++ toString p.1 ++ "] " ++ p.2.page_content))
    ∧ (retrieve_context (Except.ok docs)).sources
      = docs.map (fun d =>
          { title := d.source.getD "Unknown"
            url := d.url.getD "#"
            content := d.page_content.take 200 ++ "..." })
    ∧ ∀ d ∈ docs, (d.page_content.take 200).length ≤ 200 := by
  have hne : docs.isEmpty = false := by
    cases docs with
    | nil => exact absurd rfl h
    | cons a l => rfl
  have hctx : retrieve_context (Except.ok docs)
      = { context := String.intercalate "\n\n" (buildParts 1 docs).1
          sources := (buildParts 1 docs).2 } := by
    simp only [retrieve_context, hne, Bool.false_eq_true, if_false]
  refine ⟨?_, ?_, ?_⟩
  · rw [hctx, buildParts_eq docs 1]
    rfl
  · rw [hctx, buildParts_eq docs 1]
    rfl
  · intro d _
    exact string_take_length_le d.page_content 200

/-- Witness for C7: the fixture passages give the tagged, blank-line
joined context. -/
theorem retrieve_context_format_C7_witness :
    (retrieve_context (Except.ok docsW)).context
      = "[1] Refunds are processed within 5 business days.\n\n[2] short" := by
  have h := (retrieve_context_format_C7 docsW (by decide)).1
  rw [h]
  decide

/-- C8: every response returned by `generate_with_fallback` either is the
synthetic sentinel with provider `"none"`, or was produced by one of the
tried candidates with its `provider` field naming exactly that candidate
(assuming each adapter stamps its own name, as
`OpenAIProvider.generate_response` does). -/
theorem provider_stamp_invariant_C8 (cfg : LLMConfig) (avail : List String)
    (gen : ProviderOracle) (preferred : Option String)
    (hstamp : ∀ n ∈ providersToTry cfg avail preferred,
      stampedWith n (gen n) = true) :
    (generate_with_fallback cfg avail gen preferred).provider = "none"
    ∨ ∃ n ∈ providersToTry cfg avail preferred,
        gen n = Except.ok (generate_with_fallback cfg avail gen preferred)
        ∧ (generate_with_fallback cfg avail gen preferred).provider = n := by
  rcases tryProviders_provenance gen (providersToTry cfg avail preferred) none
    with hnone | ⟨n, hn, hgn⟩
  · exact Or.inl hnone
  · refine Or.inr ⟨n, hn, hgn, ?_⟩
    have hs := hstamp n hn
    rw [hgn] at hs
    simpa [stampedWith] using hs

/-- Witness for C8: the fixture oracle stamps each response with its
provider name, and the orchestrator returns the gemini-stamped
response. -/
theorem provider_stamp_invariant_C8_witness :
    (generate_with_fallback cfgW availW genW none).provider = "none"
    ∨ ∃ n ∈ providersToTry cfgW availW none,
        genW n = Except.ok (generate_with_fallback cfgW availW genW none)
        ∧ (generate_with_fallback cfgW availW genW none).provider = n :=
  provider_stamp_invariant_C8 cfgW availW genW none (by decide)

/-- C9 counterexample: deleting an absent session id is an error (404
Session not found), so deletion is not idempotent as claimed. -/
theorem delete_absent_counterexample_C9 :
    delete_history [] "session_a"
      = Except.error { status_code := 404, detail := "Session not found" } := rfl

/-- C9 (amended): deleting an absent session id fails with the same 404
not-found error as reading the history of an absent session id — delete
is not idempotent; deleting a present session removes it. -/
theorem session_delete_read_C9 (conversations : Conversations) (sid : String) :
    (conversations.lookup sid = none →
      delete_history conversations sid
          = Except.error { status_code := 404, detail := "Session not found" }
        ∧ get_history conversations sid
          = Except.error { status_code := 404, detail := "Session not found" })
    ∧ (∀ data, conversations.lookup sid = some data →
        get_history conversations sid = Except.ok data
        ∧ ∃ remaining, delete_history conversations sid
              = Except.ok ("History deleted successfully", remaining)
            ∧ remaining.lookup sid = none) := by
  constructor
  · intro hnone
    constructor
    · simp only [delete_history, hnone]
    · simp only [get_history, hnone]
  · intro data hsome
    constructor
    · simp only [get_history, hsome]
    · exact ⟨conversations.filter (fun entry => entry.1 ≠ sid),
        by simp only [delete_history, hsome],
        lookup_filter_ne conversations sid⟩

/-- Witness for C9: reading the stored fixture session succeeds while
deleting a missing id returns the 404 error. -/
theorem session_delete_read_C9_witness :
    get_history convW "s1" = Except.ok dataW
    ∧ delete_history convW "missing"
        = Except.error { status_code := 404, detail := "Session not found" } := by
  constructor
  · exact ((session_delete_read_C9 convW "s1").2 dataW (by decide)).1
  · exact ((session_delete_read_C9 convW "missing").1 (by decide)).1

/-- C10: with more than 6 history messages, the message sequence handed
to the generation backend is exactly the last 6 history messages followed
by the context-augmented query — 7 messages in all, the earlier history
silently absent. -/
theorem chat_history_window_C10 (history : List ChatMessage)
    (context message : String) (h : 6 < history.length) :
    build_llm_messages history context message
      = (history.drop (history.length - 6)).map
          (fun m => { role := m.role, content := m.content })
        ++ [{ role := "user", content := user_prompt context message }]
    ∧ (history.drop (history.length - 6)).length = 6
    ∧ (build_llm_messages history context message).length = 7 := by
  have hne : history.isEmpty = false := by
    cases history with
    | nil => simp at h
    | cons a l => rfl
  have hdl : (history.drop (history.length - 6)).length = 6 := by
    rw [List.length_drop]
    omega
  have heq : build_llm_messages history context message
      = (history.drop (history.length - 6)).map
          (fun m => { role := m.role, content := m.content })
        ++ [{ role := "user", content := user_prompt context message }] := by
    simp only [build_llm_messages, takeLast, hne, Bool.false_eq_true, if_false]
  refine ⟨heq, hdl, ?_⟩
  rw [heq, List.length_append, List.length_map, hdl]
  rfl

/-- Witness for C10: an 8-message fixture history yields the last 6
messages plus the query, 7 messages in all. -/
theorem chat_history_window_C10_witness :
    build_llm_messages historyW "ctx" "query"
      = (historyW.drop 2).map (fun m => { role := m.role, content := m.content })
        ++ [{ role := "user", content := user_prompt "ctx" "query" }]
    ∧ (build_llm_messages historyW "ctx" "query").length = 7 := by
  have h := chat_history_window_C10 historyW "ctx" "query" (by decide)
  exact ⟨h.1, h.2.2⟩
